import Mathlib

/-!
Shallow embedding of `xautocfg` (SFTtech/xautocfg, `src/xautocfg.cpp`) for
checking its natural-language specification.

The source file contains two concatenated revisions of the program:
- revision 1 (lines 1-363, current): `config` with a `keyboard` struct holding
  `delay`, `interval`, `on_connect`, `on_disconnect`; hooks run via
  `exec_script` (fork + execlp `/bin/sh -c`, with an added `XINPUTID`
  environment entry).
- revision 2 (lines 365-711, historical): `config` with `keyboard`
  (`delay`, `interval`) and `scripts` (`on_enable`, `on_disable`, both passed
  through `expandTilde`); hooks run via `system()` with no added environment.

Definitions ending in `1` embed revision 1; definitions ending in `2` embed
revision 2. Strings are embedded as `List Char` (`Str`). Functions that in C++
terminate the process (`exit(1)` or an uncaught `throw`) are embedded as
`Except PErr _`, where `PErr` records exactly the varying data printed in the
corresponding diagnostic message.
-/

namespace Xautocfg

/-- Strings of the C++ program, embedded as lists of characters. -/
abbrev Str := List Char

/-! ### X11 constants used by the program (values from the X11 headers) -/

/-- `GenericEvent` from `X.h`. -/
def GenericEvent : Nat := 35

/-- `XI_HierarchyChanged` from `XI2.h`. -/
def XI_HierarchyChanged : Nat := 11

/-- `XISlaveKeyboard` from `XI2.h`. -/
def XISlaveKeyboard : Nat := 4

/-- `XIDeviceEnabled` from `XI2.h` (bit 6). -/
def XIDeviceEnabled : Nat := 64

/-- `XIDeviceDisabled` from `XI2.h` (bit 7). -/
def XIDeviceDisabled : Nat := 128

/-! ### `std::istringstream >> uint32_t` extraction -/

/-- Whitespace skipped by formatted stream extraction (`isspace` in the "C"
locale): space, tab, newline, vertical tab, form feed, carriage return. -/
def isStreamSpace (c : Char) : Bool :=
  c == ' ' || c == '\t' || c == '\n' || c == '\x0b' || c == '\x0c' || c == '\r'

/-- Numeric value of a decimal digit character. -/
def digitVal (c : Char) : Nat := c.toNat - '0'.toNat

/-- Value of a run of decimal digit characters, most significant first. -/
def digitsVal (ds : Str) : Nat := ds.foldl (fun a c => a * 10 + digitVal c) 0

/-- `UINT32_MAX`. -/
def U32MAX : Nat := 4294967295

/-- Embeds `std::istringstream{val} >> x` for `x : uint32_t` (C++11 semantics):
skip whitespace, read an optional sign and a decimal digit run, convert as if
by `strtoull`. No digits: failbit, `x = 0`. Out-of-range result (including a
negated value, which exceeds `UINT32_MAX` as a `strtoull` result): failbit,
`x = UINT32_MAX`. Otherwise success with the read value. Returns
`(success, stored value)`. The sign branches are never exercised by any
theorem below (the inputs of interest are plain digit runs or non-numeric). -/
def extractU32 (s : Str) : Bool × Nat :=
  let t := s.dropWhile isStreamSpace
  let sgn : Bool × Str :=
    match t with
    | '-' :: r => (true, r)
    | '+' :: r => (false, r)
    | _ => (false, t)
  let ds := sgn.2.takeWhile Char.isDigit
  if ds.isEmpty then (false, 0)
  else
    let n := digitsVal ds
    if n ≥ 2 ^ 64 then (false, U32MAX)
    else
      let v := if sgn.1 then (2 ^ 64 - n) % 2 ^ 64 else n
      if v > U32MAX then (false, U32MAX) else (true, v)

/-- Embeds `uint32_t(1000.f / rate)` (source comment: `interval = 1000Hz / rate`).
The C++ computes in single-precision float and the float-to-integer conversion
truncates toward zero. For every `rate` with `1 ≤ rate ≤ 1000` the exact
quotient `1000/rate` has fractional part at least `1/1000` away from the next
integer while the float rounding error is at most about `1000 * 2^-24`, and
integer quotients of 1000 are exactly representable, so truncation of the
float equals natural-number division; for `rate > 1000` both sides are 0.
Hence the embedding is `1000 / rate` in natural division. For `rate = 0` the
C++ conversion of `+inf` to `uint32_t` is undefined behaviour; no theorem
below relies on the value at 0. -/
def interval_of_rate (rate : Nat) : Nat := 1000 / rate

/-- Embeds `std::format("{}", deviceid)`: decimal rendering of the id. -/
def natToStr (n : Nat) : Str := (Nat.repr n).toList

/-! ### Line classification (the three `std::regex` objects of `parse_config`)

The regexes are identical in both revisions except for the value group of the
key-value regex. Each embedding below is the ECMAScript full-match semantics
of the corresponding pattern, worked out by hand; `'\r'` matters because the
ECMAScript `.` does not match line terminators. -/

/-- Embeds matching `comment_re` = `^ *([^#]*) *#?.*` against a whole line and
returning capture group 1. The leading ` *` greedily eats leading spaces, the
group then extends to the first `#` (keeping interior and trailing spaces),
`#?.*` eats the rest. The only way the full match fails is a carriage return
after the first `#` (`.` cannot match it); `none` models that failure, which
the caller reports as `error in config file line N`. -/
def stripComment (s : Str) : Option Str :=
  let t := s.dropWhile (· == ' ')
  let pre := t.takeWhile (· != '#')
  match t.dropWhile (· != '#') with
  | [] => some pre
  | _ :: tail => if tail.contains '\r' then none else some pre

/-- Embeds the empty-line filter: `line.size() == 0 or
std::ranges::all_of(line, [](char c){ return c == ' '; })`. Note only the
space character counts, not tabs or other whitespace. -/
def isBlankLine (s : Str) : Bool := s.all (· == ' ')

/-- Embeds matching `section_re` = `^\[([^\]]+)\]$` and returning group 1:
the line is `[` then a nonempty bracket-free name then `]`. -/
def matchSection (s : Str) : Option Str :=
  match s with
  | '[' :: rest =>
    if rest.getLast? == some ']' then
      let mid := rest.dropLast
      if mid.isEmpty || mid.contains ']' then none else some mid
    else none
  | _ => none

/-- Embeds matching `kv_re` = `^([^= ]+) *= *(.+)$` (revision 1) and returning
groups 1 and 2. Group 1 is the maximal leading run without `=` or space, then
spaces, then `=`, then spaces, then a nonempty value running to end of line.
When everything after `=` is spaces, greedy backtracking of ` *` leaves one
space as the value. A `'\r'` in the value region makes the whole match fail
(`.` cannot consume it). -/
def matchKV1 (s : Str) : Option (Str × Str) :=
  let key := s.takeWhile (fun c => c != '=' && c != ' ')
  let rest := (s.dropWhile (fun c => c != '=' && c != ' ')).dropWhile (· == ' ')
  if key.isEmpty then none
  else
    match rest with
    | '=' :: after =>
      let v := after.dropWhile (· == ' ')
      if v.isEmpty then
        if after.isEmpty then none else some (key, [' '])
      else if v.contains '\r' then none else some (key, v)
    | _ => none

/-! ### Diagnostics

`PErr` records which fatal diagnostic the program emitted and the varying data
the message contains. The constructors correspond one-to-one to the fatal
paths of `parse_config` / `parse_config_entry`:
- `commentErr n l`: `error in config file line N:\n<fullline>` then `exit(1)`;
- `unknownSection l`: `unknown section name: <fullline>` then `exit(1)`
  (no line number in the message);
- `unknownKey k`: revision 1 `throw std::logic_error("unknown keyboard
  section entry: <key>")` (uncaught, terminates; no line number);
- `noSection k v`: `not in a config section: <key> = <val>` then `exit(1)`;
- `invalidSyntax n l`: `invalid syntax in line N:\n<fullline>` then `exit(1)`;
- `failOpen`: `failed to open config file '<path>'!` then `exit(1)`. -/
inductive PErr
  | commentErr (linenr : Nat) (fullline : Str)
  | unknownSection (fullline : Str)
  | unknownKey (key : Str)
  | noSection (key : Str) (val : Str)
  | invalidSyntax (linenr : Nat) (fullline : Str)
  | failOpen
deriving DecidableEq

instance {ε α : Type} [DecidableEq ε] [DecidableEq α] : DecidableEq (Except ε α) :=
  fun x y =>
    match x, y with
    | .ok a, .ok b =>
      if h : a = b then isTrue (by rw [h]) else isFalse (fun hh => h (Except.ok.inj hh))
    | .ok _, .error _ => isFalse (fun hh => Except.noConfusion hh)
    | .error _, .ok _ => isFalse (fun hh => Except.noConfusion hh)
    | .error e, .error f =>
      if h : e = f then isTrue (by rw [h]) else isFalse (fun hh => h (Except.error.inj hh))

/-- The line number contained in the diagnostic message of an error, if the
message format includes one. Only the `error in config file line N` and
`invalid syntax in line N` messages carry a line number. -/
def errLineNr : PErr → Option Nat
  | .commentErr n _ => some n
  | .invalidSyntax n _ => some n
  | _ => none

/-- Whether the error is the unknown-section diagnostic. -/
def isUnknownSectionErr : PErr → Bool
  | .unknownSection _ => true
  | _ => false

/-- Whether the error is the unknown-key diagnostic. -/
def isUnknownKeyErr : PErr → Bool
  | .unknownKey _ => true
  | _ => false

/-! ### Revision 1: config model and parser -/

/-- `struct config::keyboard` of revision 1, with its member initializers. -/
structure KeyboardCfg1 where
  delay : Nat := 200
  interval : Nat := 20
  on_connect : Str := []
  on_disconnect : Str := []
deriving DecidableEq

/-- `struct config` of revision 1. -/
structure Config1 where
  keyboard : KeyboardCfg1 := {}
deriving DecidableEq

/-- `enum class config_section` of revision 1. -/
inductive Section1
  | none
  | keyboard
deriving DecidableEq

/-- Embeds revision 1 `parse_config_entry`. In the keyboard section, `delay`
stores the extracted value (0 on extraction failure), `rate` stores
`1000.f / rate` truncated, `on_connect` / `on_disconnect` store the raw value
string; any other key throws `std::logic_error` (fatal). Outside any section,
every key is fatal (`exit(1)`). -/
def parse_config_entry1 (cfg : Config1) (sec : Section1) (key val : Str) :
    Except PErr Config1 :=
  match sec with
  | .keyboard =>
    if key = "delay".toList then
      .ok { cfg with keyboard := { cfg.keyboard with delay := (extractU32 val).2 } }
    else if key = "rate".toList then
      .ok { cfg with keyboard :=
        { cfg.keyboard with interval := interval_of_rate (extractU32 val).2 } }
    else if key = "on_connect".toList then
      .ok { cfg with keyboard := { cfg.keyboard with on_connect := val } }
    else if key = "on_disconnect".toList then
      .ok { cfg with keyboard := { cfg.keyboard with on_disconnect := val } }
    else .error (.unknownKey key)
  | .none => .error (.noSection key val)

/-- Embeds the line loop of revision 1 `parse_config`: strip the comment,
skip blank (all-space) lines, switch section on `[keyboard]` (any other
section name is fatal, reported with the full line but no line number),
route `key = value` lines to `parse_config_entry`, and report anything else
as `invalid syntax in line N`. `linenr` is the count of lines already
consumed (the source increments it at the top of the loop). -/
def parse_lines1 : Section1 → Config1 → Nat → List Str → Except PErr Config1
  | _, cfg, _, [] => .ok cfg
  | sec, cfg, linenr, fullline :: rest =>
    match stripComment fullline with
    | Option.none => .error (.commentErr (linenr + 1) fullline)
    | some line =>
      if isBlankLine line then parse_lines1 sec cfg (linenr + 1) rest
      else
        match matchSection line with
        | some name =>
          if name = "keyboard".toList then
            parse_lines1 .keyboard cfg (linenr + 1) rest
          else .error (.unknownSection fullline)
        | Option.none =>
          match matchKV1 line with
          | some kv =>
            match parse_config_entry1 cfg sec kv.1 kv.2 with
            | .ok cfg2 => parse_lines1 sec cfg2 (linenr + 1) rest
            | .error e => .error e
          | Option.none => .error (.invalidSyntax (linenr + 1) fullline)

/-- Embeds revision 1 `parse_config`. `file` is `none` when
`std::ifstream` fails to open the path: with `--config` (custom path) that is
fatal, otherwise the default-initialized `config` is returned and the program
continues. Otherwise the lines are parsed starting in no section. -/
def parse_config1 (custom_config : Bool) (file : Option (List Str)) :
    Except PErr Config1 :=
  match file with
  | Option.none => if custom_config then .error .failOpen else .ok {}
  | some ls => parse_lines1 .none {} 0 ls

/-! ### Revision 1: dispatcher and event loop -/

/-- Observable side effects of the dispatcher:
- `setRepeatRate d delay interval` embeds
  `XkbSetAutoRepeatRate(display, d, delay, interval)`;
- `spawn cmd env` embeds running `cmd` through `/bin/sh -c` (revision 1
  `exec_script` after `setenv`-ing the entries of `env`; revision 2
  `system(cmd)`, which adds no environment entries);
- `logError msg` embeds a write to `std::cerr`. The `cerr` writes of the
  source depend on the spawned child's exit status, which is outside the
  embedding, so no definition below emits `logError`; the constructor exists
  so that claims about error logging can be stated. -/
inductive Effect
  | setRepeatRate (deviceid delay interval : Nat)
  | spawn (command : Str) (env : List (Str × Str))
  | logError (msg : Str)
deriving DecidableEq

/-- Embeds the revision 1 lambda `set_kbd_repeat_rate`: only an enabled
transition applies the configured repeat rate to the device. -/
def set_kbd_repeat_rate1 (cfg : Config1) (deviceid : Nat) (enabled : Bool) :
    List Effect :=
  if enabled then
    [.setRepeatRate deviceid cfg.keyboard.delay cfg.keyboard.interval]
  else []

/-- `auto& command = enabled ? cfg.keyboard.on_connect : cfg.keyboard.on_disconnect`. -/
def kbd_plug_command (cfg : Config1) (enabled : Bool) : Str :=
  if enabled then cfg.keyboard.on_connect else cfg.keyboard.on_disconnect

/-- Embeds the revision 1 lambda `run_kbd_plug_script`: when the
direction-specific command is nonempty, it is spawned through
`exec_script`, which forks and in the child sets `XINPUTID` to the decimal
device id before `execlp("/bin/sh", "sh", "-c", command, ...)`. (The
subsequent `script failed` log depends on the child's exit status and is not
part of the embedding.) -/
def run_kbd_plug_script1 (cfg : Config1) (deviceid : Nat) (enabled : Bool) :
    List Effect :=
  if kbd_plug_command cfg enabled = [] then []
  else [.spawn (kbd_plug_command cfg enabled) [("XINPUTID".toList, natToStr deviceid)]]

/-- Embeds the revision 1 lambda `handle_keyboard_plug`: apply the repeat
rate, then run the hook script. -/
def handle_keyboard_plug1 (cfg : Config1) (deviceid : Nat) (enabled : Bool) :
    List Effect :=
  set_kbd_repeat_rate1 cfg deviceid enabled ++ run_kbd_plug_script1 cfg deviceid enabled

/-- One `XIHierarchyInfo` record of a hierarchy event. -/
structure HierInfo where
  deviceid : Nat
  use : Nat
  flags : Nat
deriving DecidableEq

/-- The `XIHierarchyEvent` payload retrieved by `XGetEventData`. -/
structure HierEvent where
  flags : Nat
  info : List HierInfo
deriving DecidableEq

/-- One `XEvent` as inspected by the loop: `event.type`,
`event.xcookie.extension`, `event.xcookie.evtype`, and the payload
`XGetEventData` yields (`none` when that call fails). -/
structure EventRec where
  type : Nat
  extension : Nat
  evtype : Nat
  payload : Option HierEvent
deriving DecidableEq

/-- Outcome of one event-loop iteration: proceed to the next event having
emitted some effects, or terminate the process. The loop body of the source
has no terminating path, so no definition constructs `exitProcess`; the
constructor exists so that "never terminates" is a statement, not a type
tautology by accident of modelling. -/
inductive LoopStep
  | next (effects : List Effect)
  | exitProcess (code : Nat)
deriving DecidableEq

/-- Embeds the per-record body of the revision 1 event loop: for a slave
keyboard record, an enabled flag triggers `handle_keyboard_plug(id, true)`
and then, independently, a disabled flag triggers
`handle_keyboard_plug(id, false)`. -/
def process_record1 (cfg : Config1) (hier : HierInfo) : List Effect :=
  if hier.use = XISlaveKeyboard then
    (if hier.flags &&& XIDeviceEnabled ≠ 0 then
      handle_keyboard_plug1 cfg hier.deviceid true
    else [])
      ++
    (if hier.flags &&& XIDeviceDisabled ≠ 0 then
      handle_keyboard_plug1 cfg hier.deviceid false
    else [])
  else []

/-- Embeds one iteration of the revision 1 event loop (after `XNextEvent`):
non-generic or foreign-extension events are skipped; for a hierarchy-change
event, failure of `XGetEventData` just `continue`s (emitting nothing, in
particular no log line); an event with neither the enabled nor the disabled
flag is skipped; otherwise every info record is processed in order. -/
def handle_event1 (cfg : Config1) (opcode : Nat) (ev : EventRec) : LoopStep :=
  if ev.type = GenericEvent ∧ ev.extension = opcode then
    if ev.evtype = XI_HierarchyChanged then
      match ev.payload with
      | Option.none => .next []
      | some hev =>
        if hev.flags &&& (XIDeviceEnabled ||| XIDeviceDisabled) = 0 then .next []
        else .next ((hev.info.map (process_record1 cfg)).flatten)
    else .next []
  else .next []

/-- Whether an effect is a repeat-rate application. -/
def isSetRepeatRate : Effect → Bool
  | .setRepeatRate _ _ _ => true
  | _ => false

/-- Whether an effect is an error-stream log line. -/
def isLogError : Effect → Bool
  | .logError _ => true
  | _ => false

/-- Number of error-stream log lines a loop step emits. -/
def logCount : LoopStep → Nat
  | .next effs => effs.countP isLogError
  | .exitProcess _ => 0

/-- Whether a loop step continues with the next event. -/
def isNextStep : LoopStep → Bool
  | .next _ => true
  | _ => false

/-! ### Revision 2: config model, entry parser, dispatcher -/

/-- Embeds revision 2 `expandTilde`: a leading `~` is replaced by `HOME`
when that environment variable is set (when unset the source logs to `cerr`
and returns the path unchanged). -/
def expandTilde (home : Option Str) (path : Str) : Str :=
  match path with
  | '~' :: rest =>
    match home with
    | some h => h ++ rest
    | Option.none => path
  | _ => path

/-- `struct config::keyboard` of revision 2. -/
structure KeyboardCfg2 where
  delay : Nat := 200
  interval : Nat := 20
deriving DecidableEq

/-- `struct config::scripts` of revision 2. -/
structure ScriptsCfg2 where
  on_enable : Str := []
  on_disable : Str := []
deriving DecidableEq

/-- `struct config` of revision 2. -/
structure Config2 where
  keyboard : KeyboardCfg2 := {}
  scripts : ScriptsCfg2 := {}
deriving DecidableEq

/-- `enum class config_section` of revision 2. -/
inductive Section2
  | none
  | keyboard
  | scripts
deriving DecidableEq

/-- Embeds revision 2 `parse_config_entry`. In the keyboard section only
`delay` and `rate` are recognized and any other key falls through the
`if`/`else if` chain with no `else`, leaving the config unchanged; likewise
in the scripts section only `on_enable` / `on_disable` (passed through
`expandTilde`; `vals.str()` equals the raw value) are recognized. Outside any
section every key is fatal (`exit(1)`). The final `throw` for an unknown
section value is unreachable, the enum having exactly these three variants. -/
def parse_config_entry2 (home : Option Str) (cfg : Config2) (sec : Section2)
    (key val : Str) : Except PErr Config2 :=
  match sec with
  | .keyboard =>
    if key = "delay".toList then
      .ok { cfg with keyboard := { cfg.keyboard with delay := (extractU32 val).2 } }
    else if key = "rate".toList then
      .ok { cfg with keyboard :=
        { cfg.keyboard with interval := interval_of_rate (extractU32 val).2 } }
    else .ok cfg
  | .scripts =>
    if key = "on_enable".toList then
      .ok { cfg with scripts := { cfg.scripts with on_enable := expandTilde home val } }
    else if key = "on_disable".toList then
      .ok { cfg with scripts := { cfg.scripts with on_disable := expandTilde home val } }
    else .ok cfg
  | .none => .error (.noSection key val)

/-- Embeds the revision 2 lambda `execute_script`: an enable transition with a
nonempty `on_enable` runs `system(on_enable)`; otherwise — including an
enable transition whose `on_enable` is empty — a nonempty `on_disable` runs
`system(on_disable)`. `system` runs the command through the shell with the
parent's environment; no device-id variable is added (the id is only printed
to `stdout`). -/
def execute_script2 (cfg : Config2) (deviceid : Nat) (enabled : Bool) :
    List Effect :=
  if enabled && !cfg.scripts.on_enable.isEmpty then
    [.spawn cfg.scripts.on_enable []]
  else if !cfg.scripts.on_disable.isEmpty then
    [.spawn cfg.scripts.on_disable []]
  else []

/-- Whether an environment-entry list carries an `XINPUTID` binding. -/
def envHasXINPUTID (env : List (Str × Str)) : Bool :=
  env.any (fun p => p.1 == "XINPUTID".toList)

/-! ### Spec-side definition for claim C1 -/

/-- Modelled from the spec's words, for comparison only: `round(1000/R)` with
rounding half up, as the spec's `interval = round(1000/R)` reads. The
code-side definition is `interval_of_rate`, which truncates. -/
def roundDiv (a b : Nat) : Nat := (2 * a + b) / (2 * b)

/-! ### Claim C1 -/

/-- C1 counterexample: for the positive rate value `R = 7` the parsed interval
is `142` (the single-precision quotient `1000.f / 7` truncated toward zero),
not `round(1000 / 7) = 143` as the claim states. -/
theorem c1_round_counterexample :
    parse_config_entry1 {} .keyboard "rate".toList "7".toList
        = .ok { keyboard := { interval := 142 } }
    ∧ (142 : Nat) ≠ roundDiv 1000 7 := by
  exact ⟨by decide, by decide⟩

/-- C1 (amended): for every positive integer `R` supplied as the value of a
`rate` key in the keyboard section, both revisions of `parse_config_entry` set
the repeat interval to `1000 / R` truncated (natural division, equal to the
truncating C++ float-to-integer conversion); in particular `R = 50` yields
interval `20` and `R = 100` yields interval `10`, since those divide evenly. -/
theorem c1_interval_truncates (cfg1 : Config1) (cfg2 : Config2) (home : Option Str)
    (r : Nat) (val : Str) (hex : extractU32 val = (true, r)) (hr : 0 < r) :
    parse_config_entry1 cfg1 .keyboard "rate".toList val
        = .ok { cfg1 with keyboard := { cfg1.keyboard with interval := 1000 / r } }
    ∧ parse_config_entry2 home cfg2 .keyboard "rate".toList val
        = .ok { cfg2 with keyboard := { cfg2.keyboard with interval := 1000 / r } } := by
  constructor
  · unfold parse_config_entry1
    rw [if_neg (by decide), if_pos rfl, hex]
    rfl
  · unfold parse_config_entry2
    rw [if_neg (by decide), if_pos rfl, hex]
    rfl

/-- C1 witness: the amended statement at `R = 50` (interval 20) and, through
the truncation formula, at `R = 100` (interval 10). -/
theorem c1_interval_truncates_witness :
    parse_config_entry1 {} .keyboard "rate".toList "50".toList
        = .ok { keyboard := { interval := 20 } }
    ∧ parse_config_entry1 {} .keyboard "rate".toList "100".toList
        = .ok { keyboard := { interval := 10 } } := by
  constructor
  · exact (c1_interval_truncates {} {} Option.none 50 "50".toList (by decide) (by decide)).1
  · exact (c1_interval_truncates {} {} Option.none 100 "100".toList (by decide) (by decide)).1

/-! ### Claim C2 -/

/-- C2 counterexample: in revision 2, a device-enable transition with a
nonempty `on_enable` hook spawns the command through `system()` with an empty
added environment: no `XINPUTID` (or any other) variable carrying the device
id is exported to the child, contrary to the claim. -/
theorem c2_no_xinputid_counterexample :
    execute_script2 { scripts := { on_enable := "x".toList } } 7 true
        = [Effect.spawn "x".toList []]
    ∧ envHasXINPUTID [] = false := by
  exact ⟨by decide, by decide⟩

/-- C2 (amended): in revision 1, for every transition in either direction
whose direction-specific hook command is nonempty, exactly that command is
spawned as a child shell process with `XINPUTID` set to the decimal device id
in its environment. In revision 2 every spawned hook runs with an empty added
environment, so no device id is exported (and an enable transition with empty
`on_enable` can even spawn the `on_disable` command). -/
theorem c2_hook_spawn (cfg : Config1) (deviceid : Nat) (enabled : Bool)
    (hcmd : kbd_plug_command cfg enabled ≠ []) :
    run_kbd_plug_script1 cfg deviceid enabled
        = [Effect.spawn (kbd_plug_command cfg enabled)
            [("XINPUTID".toList, natToStr deviceid)]]
    ∧ ∀ (cfg2 : Config2) (id2 : Nat) (en2 : Bool),
        ∀ e ∈ execute_script2 cfg2 id2 en2, ∃ c, e = Effect.spawn c [] := by
  constructor
  · unfold run_kbd_plug_script1
    rw [if_neg hcmd]
  · intro cfg2 id2 en2 e he
    unfold execute_script2 at he
    split at he
    · rw [List.mem_singleton] at he
      exact ⟨_, he⟩
    · split at he
      · rw [List.mem_singleton] at he
        exact ⟨_, he⟩
      · exact absurd he (List.not_mem_nil e)

/-- C2 witness: the amended statement for revision 1 at device id 7, enable
direction, hook command `x`. -/
theorem c2_hook_spawn_witness :
    run_kbd_plug_script1 { keyboard := { on_connect := "x".toList } } 7 true
        = [Effect.spawn "x".toList [("XINPUTID".toList, "7".toList)]] := by
  exact (c2_hook_spawn { keyboard := { on_connect := "x".toList } } 7 true (by decide)).1

/-! ### Claim C3 -/

/-- C3: a hierarchy-event device record of class slave keyboard carrying both
the enabled and the disabled flag invokes the dispatcher twice, enable first
and disable second; the enable invocation starts by applying the configured
repeat rate (delay and interval) to the device, and the disable invocation
applies no repeat rate at all. -/
theorem c3_both_flags (cfg : Config1) (hier : HierInfo)
    (huse : hier.use = XISlaveKeyboard)
    (hen : hier.flags &&& XIDeviceEnabled ≠ 0)
    (hdis : hier.flags &&& XIDeviceDisabled ≠ 0) :
    process_record1 cfg hier
        = handle_keyboard_plug1 cfg hier.deviceid true
            ++ handle_keyboard_plug1 cfg hier.deviceid false
    ∧ handle_keyboard_plug1 cfg hier.deviceid true
        = Effect.setRepeatRate hier.deviceid cfg.keyboard.delay cfg.keyboard.interval
            :: run_kbd_plug_script1 cfg hier.deviceid true
    ∧ (handle_keyboard_plug1 cfg hier.deviceid false).countP isSetRepeatRate = 0 := by
  refine ⟨?_, rfl, ?_⟩
  · unfold process_record1
    rw [if_pos huse, if_pos hen, if_pos hdis]
  · unfold handle_keyboard_plug1 set_kbd_repeat_rate1 run_kbd_plug_script1
    split
    · exact absurd ‹(false : Bool) = true› (by decide)
    · split
      · rfl
      · rfl

/-- C3 witness: the statement for device id 7, flags 192 (enabled and
disabled bits both set), use class slave keyboard, under the default config. -/
theorem c3_both_flags_witness :
    process_record1 {} ⟨7, 4, 192⟩
        = handle_keyboard_plug1 {} 7 true ++ handle_keyboard_plug1 {} 7 false
    ∧ (handle_keyboard_plug1 {} 7 false).countP isSetRepeatRate = 0 := by
  have h := c3_both_flags {} ⟨7, 4, 192⟩ (by decide) (by decide) (by decide)
  exact ⟨h.1, h.2.2⟩

/-! ### Claim C4 -/

/-- C4: when the config file cannot be opened, an explicitly supplied path
(`-c`/`--config`) is fatal with no fallback, while the default path falls
back to the built-in default `Config` (delay 200, interval 20, both hook
commands empty) and parsing succeeds. -/
theorem c4_missing_config :
    parse_config1 true Option.none = .error .failOpen
    ∧ parse_config1 false Option.none
        = .ok { keyboard :=
            { delay := 200, interval := 20, on_connect := [], on_disconnect := [] } } := by
  exact ⟨rfl, rfl⟩

/-! ### Claim C5 -/

/-- C5 counterexample: in revision 2 `parse_config_entry`, the unknown key
`foo` inside the open `keyboard` section is not fatal — the `if`/`else if`
chain has no final `else`, so the line is silently ignored and the config is
returned unchanged, contrary to the claim. -/
theorem c5_silent_ignore_counterexample :
    parse_config_entry2 Option.none {} .keyboard "foo".toList "bar".toList
        = .ok {} := by
  decide

/-- C5 (amended): a key encountered while no section is open is fatal in both
revisions; a key outside the fixed key set of the open section is fatal in
revision 1 (an uncaught `std::logic_error`), but in revision 2 it is silently
ignored, leaving the config unchanged. -/
theorem c5_unknown_key (cfg : Config1) (cfg2 : Config2) (home : Option Str)
    (key val : Str)
    (h1 : key ≠ "delay".toList) (h2 : key ≠ "rate".toList)
    (h3 : key ≠ "on_connect".toList) (h4 : key ≠ "on_disconnect".toList) :
    parse_config_entry1 cfg .keyboard key val = .error (.unknownKey key)
    ∧ parse_config_entry1 cfg .none key val = .error (.noSection key val)
    ∧ parse_config_entry2 home cfg2 .none key val = .error (.noSection key val)
    ∧ parse_config_entry2 home cfg2 .keyboard key val = .ok cfg2 := by
  refine ⟨?_, rfl, rfl, ?_⟩
  · unfold parse_config_entry1
    rw [if_neg h1, if_neg h2, if_neg h3, if_neg h4]
  · unfold parse_config_entry2
    rw [if_neg h1, if_neg h2]

/-- C5 witness: the amended statement at the unknown key `foo`. -/
theorem c5_unknown_key_witness :
    parse_config_entry1 {} .keyboard "foo".toList "bar".toList
        = .error (.unknownKey "foo".toList)
    ∧ parse_config_entry1 {} .none "foo".toList "bar".toList
        = .error (.noSection "foo".toList "bar".toList) := by
  have h := c5_unknown_key {} {} Option.none "foo".toList "bar".toList
    (by decide) (by decide) (by decide) (by decide)
  exact ⟨h.1, h.2.1⟩

/-! ### Claim C6 -/

/-- C6 counterexample: the config consisting of the single line `[bogus]`
terminates parsing with the unknown-section diagnostic, whose message
(`unknown section name: <fullline>`) contains the offending line text but no
line number — in particular not the physical line number 1 the claim
requires. -/
theorem c6_no_linenr_counterexample :
    parse_config1 false (some ["[bogus]".toList])
        = .error (.unknownSection "[bogus]".toList)
    ∧ errLineNr (.unknownSection "[bogus]".toList) ≠ some 1 := by
  exact ⟨by decide, by decide⟩

/-- C6 (amended): whenever parsing terminates because of an unknown section
name or an unknown key inside a known section, the diagnostic carries the
offending line text (respectively the key), but no line number at all; only
the comment-regex-failure and invalid-syntax diagnostics report the physical
line number. -/
theorem c6_unknown_errors_carry_no_linenr (custom : Bool)
    (file : Option (List Str)) (e : PErr)
    (hp : parse_config1 custom file = .error e)
    (he : isUnknownSectionErr e = true ∨ isUnknownKeyErr e = true) :
    errLineNr e = Option.none := by
  cases e <;> simp_all [isUnknownSectionErr, isUnknownKeyErr, errLineNr]

/-- C6 witness: the amended statement for the parse of the single line
`[zzz]`, which fails with the unknown-section diagnostic. -/
theorem c6_unknown_errors_carry_no_linenr_witness :
    errLineNr (.unknownSection "[zzz]".toList) = Option.none := by
  exact c6_unknown_errors_carry_no_linenr false (some ["[zzz]".toList])
    (.unknownSection "[zzz]".toList) (by decide) (Or.inl rfl)

/-! ### Claim C7 -/

/-- C7 counterexample: for a hierarchy-change event whose extended payload
retrieval (`XGetEventData`) fails, the loop iteration continues to the next
event but emits no effect at all — in particular zero error-stream log lines,
contrary to the claim that the failure is logged. -/
theorem c7_no_log_counterexample :
    handle_event1 {} 131
        { type := 35, extension := 131, evtype := 11, payload := Option.none }
        = .next []
    ∧ logCount (LoopStep.next []) = 0 := by
  exact ⟨by decide, rfl⟩

/-- C7 (amended): when retrieval of a hierarchy-change event's extended
payload fails, the event loop silently discards the event (emitting nothing,
with no log line) and continues with the next event; moreover no event
whatsoever makes the loop body terminate the process. -/
theorem c7_event_data_failure (cfg : Config1) (opcode : Nat) (ev : EventRec)
    (hp : ev.payload = Option.none) :
    handle_event1 cfg opcode ev = .next []
    ∧ ∀ ev2 : EventRec, isNextStep (handle_event1 cfg opcode ev2) = true := by
  constructor
  · unfold handle_event1
    split
    · split
      · rw [hp]
      · rfl
    · rfl
  · intro ev2
    unfold handle_event1
    split
    · split
      · cases ev2.payload with
        | none => rfl
        | some hev =>
          show isNextStep (if _ = 0 then _ else _) = true
          split
          · rfl
          · rfl
      · rfl
    · rfl

/-- C7 witness: the amended statement for a matching generic hierarchy-change
event with failed payload retrieval, opcode 131, under the default config. -/
theorem c7_event_data_failure_witness :
    handle_event1 {} 131
        { type := 35, extension := 131, evtype := 11, payload := Option.none }
        = .next [] := by
  exact (c7_event_data_failure {} 131
    { type := 35, extension := 131, evtype := 11, payload := Option.none } rfl).1

/-! ### Claim C8 -/

/-- C8 counterexample: a line consisting of a single tab character is
all-whitespace, yet processing it does not leave the parser state unchanged:
the blank-line filter only skips spaces, the line matches neither the section
nor the key-value pattern, and parsing terminates with the fatal
`invalid syntax in line 1` diagnostic (whereas an unchanged state would make
this one-line parse succeed with the default config). -/
theorem c8_tab_line_counterexample :
    parse_lines1 .none {} 0 ["\t".toList]
        = .error (.invalidSyntax 1 "\t".toList)
    ∧ parse_lines1 .none {} 0 [] = .ok {} := by
  exact ⟨by decide, rfl⟩

/-- C8 (amended): every input line that is empty, all spaces, or consists
only of spaces and a comment after comment stripping — that is, whose
comment-stripped form is empty or all spaces — leaves the parser state
unchanged: the current section stays the same and the config under
construction is passed on unmodified; only the line counter advances.
Whitespace other than the space character is not skipped. -/
theorem c8_blank_line_no_state_change (sec : Section1) (cfg : Config1)
    (n : Nat) (l : Str) (rest : List Str) (s : Str)
    (hs : stripComment l = some s) (hb : isBlankLine s = true) :
    parse_lines1 sec cfg n (l :: rest) = parse_lines1 sec cfg (n + 1) rest := by
  simp only [parse_lines1, hs, hb, if_true]

/-- C8 witness: the amended statement for the all-space line `"   "` followed
by a section header, starting from the initial parser state. -/
theorem c8_blank_line_no_state_change_witness :
    parse_lines1 .none {} 0 ["   ".toList, "[keyboard]".toList]
        = parse_lines1 .none {} 1 ["[keyboard]".toList] := by
  exact c8_blank_line_no_state_change .none {} 0 "   ".toList
    ["[keyboard]".toList] [] (by decide) (by decide)

/-! ### Claim C9 -/

/-- C9: config parsing is deterministic and idempotent — two parses of the
same file contents (same lines, same custom-path flag) that succeed yield
identical `Config` values; the parser keeps no state between calls beyond its
arguments. -/
theorem c9_parse_deterministic (custom : Bool) (file : Option (List Str))
    (c1 c2 : Config1)
    (h1 : parse_config1 custom file = .ok c1)
    (h2 : parse_config1 custom file = .ok c2) :
    c1 = c2 := by
  rw [h1] at h2
  exact Except.ok.inj h2

/-- C9 witness: two parses of the well-formed file `[keyboard]` /
`rate = 50` both yield the config with delay 200 and interval 20. -/
theorem c9_parse_deterministic_witness :
    ({ keyboard := { delay := 200, interval := 20 } } : Config1)
        = { keyboard := { delay := 200, interval := 20 } } := by
  exact c9_parse_deterministic false
    (some ["[keyboard]".toList, "rate = 50".toList]) _ _ (by decide) (by decide)

/-! ### Claim C10 -/

/-- C10: a `delay` (or `rate`) entry whose value is not a valid non-negative
integer is not a parse error: stream extraction fails and stores 0, and
parsing continues. In particular the file `[keyboard]` / `delay = abc`
silently yields the config with delay 0 (interval still 20), and
`[keyboard]` / `rate = abc` also parses without a diagnostic (the interval it
stores comes from a division by the failed-extraction value 0, which in the
C++ is an undefined float-to-integer conversion, so its value is not
asserted here). -/
theorem c10_nonnumeric_value :
    parse_config1 false (some ["[keyboard]".toList, "delay = abc".toList])
        = .ok { keyboard := { delay := 0 } }
    ∧ extractU32 "abc".toList = (false, 0)
    ∧ ∃ c : Config1,
        parse_config1 false (some ["[keyboard]".toList, "rate = abc".toList])
          = .ok c := by
  refine ⟨by decide, by decide, ⟨_, rfl⟩⟩

end Xautocfg
